import Mathlib

/-! Verification of the BR-2026 risk-advisor repository.

Shallow embedding of the repository's launcher script (`checkPort`,
`waitForServices`, `startElectron`), the Electron main-process IPC layer
(`makeApiCall` and the `ipcMain.handle` handlers), and — modelled from the
specification, since `analyzer.py`/`monitor.py` are not part of the
available sources — the risk-analysis engine (signals, risk levels,
fingerprints, the verdict cache, the reputation wire contract and the
directory-watcher state machine).
-/

namespace BR2026

/-! ## Launcher script (`src/unnamed/part_000`) -/

/-- Outcome of a single TCP socket attempt in `checkPort`: the socket either
fires `connect`, fires `timeout` (after the configured timeout), or fires
`error`. -/
inductive SocketOutcome
  | connected
  | timedOut
  | sockError
  deriving DecidableEq, Repr

/-- The socket timeout set by `checkPort` via `socket.setTimeout(2000)`,
in milliseconds. -/
def checkPortTimeoutMs : Nat := 2000

/-- Function `checkPort(port, name)` from the launcher script: resolves `true` on the
`connect` event and `false` on the `timeout` or `error` events; every branch
calls `resolve`, never `reject`, so the promise always resolves to a
boolean. -/
def checkPort : SocketOutcome → Bool
  | .connected => true
  | .timedOut => false
  | .sockError => false

/-- Constant `maxAttempts` of `waitForServices`. -/
def maxAttempts : Nat := 30

/-- The environment seen by `waitForServices`: for each attempt number
(1-based), whether port 3000 (Vite) and port 5001 (Python API) accept a
connection at that attempt. -/
def ServiceEnv := Nat → Bool × Bool

/-- Both services report ready at a given attempt. -/
def bothReady (p : Bool × Bool) : Prop := p.1 = true ∧ p.2 = true

instance (p : Bool × Bool) : Decidable (bothReady p) := by
  unfold bothReady; infer_instance

/-- The `while (attempts < maxAttempts)` loop of `waitForServices`,
translated with explicit fuel (`fuel = maxAttempts - attempts` at entry).
Returns `some (b, attempts)` when the loop body executes `return b` after
`attempts` attempts, and `none` if the loop exits by its condition (the JS
function would return `undefined`).  Each iteration increments `attempts`,
checks both ports, returns `true` if both are ready, and returns `false`
once `attempts >= maxAttempts`. -/
def waitLoop (env : ServiceEnv) : Nat → Nat → Option (Bool × Nat)
  | 0, _ => none
  | fuel + 1, attempts =>
    if (env (attempts + 1)).1 && (env (attempts + 1)).2 then
      some (true, attempts + 1)
    else if maxAttempts ≤ attempts + 1 then some (false, attempts + 1)
    else waitLoop env fuel (attempts + 1)

/-- The delay between consecutive attempts in `waitForServices`, in
milliseconds: `await new Promise(resolve => setTimeout(resolve, 2000))`. -/
def retryDelayMs : Nat := 2000

/-- Function `waitForServices()` from the launcher script: runs the attempt loop
starting from `attempts = 0`. -/
def waitForServices (env : ServiceEnv) : Option (Bool × Nat) :=
  waitLoop env maxAttempts 0

/-- Result of `startElectron`: either the process exits with a code before
spawning Electron, or Electron is spawned. -/
inductive StartResult
  | exited (code : Int)
  | spawned
  deriving DecidableEq, Repr

/-- Function `startElectron()` from the launcher script: awaits `waitForServices`;
`if (!servicesReady)` (i.e. anything other than `true`, including
`undefined`) it prints a hint and calls `process.exit(1)`; otherwise it
spawns Electron. -/
def startElectron (env : ServiceEnv) : StartResult :=
  match waitForServices env with
  | some (true, _) => .spawned
  | _ => .exited 1

/-! ## Electron main process (`electron/src/main.js`) -/

/-- A JSON value, as produced by `response.json()` and returned by the IPC
handlers. -/
inductive Json
  | null
  | bool (b : Bool)
  | num (n : Int)
  | str (s : String)
  | arr (items : List Json)
  | obj (fields : List (String × Json))

/-- Outcome of the `fetch` call inside `makeApiCall`: the fetch promise
either rejects with a network error, or resolves to a response with an
`ok` flag, a numeric `status`, and a body whose `response.json()` either
parses to a `Json` value or rejects with a parse error. -/
inductive FetchOutcome
  | networkError (msg : String)
  | response (ok : Bool) (status : Nat) (body : Except String Json)

/-- Function `makeApiCall(endpoint, options)` from `main.js`: awaits `fetch`; if
`!response.ok` it throws `Error("API call failed: " + status)`; otherwise
it returns `await response.json()`.  The surrounding `try/catch` logs the
error and rethrows it (`throw error`), so every failure propagates to the
caller as an error. -/
def makeApiCall : FetchOutcome → Except String Json
  | .networkError msg => .error msg
  | .response ok status body =>
    if !ok then .error ("API call failed: " ++ toString status)
    else
      match body with
      | .error msg => .error msg
      | .ok j => .ok j

/-- The nine IPC channels registered with `ipcMain.handle` in `main.js`. -/
inductive IpcChannel
  | startMonitoring
  | stopMonitoring
  | getMonitoringStatus
  | updateMonitoringSettings
  | getAlerts
  | startAI
  | stopAI
  | getAIStatus
  | chatWithAI
  deriving DecidableEq, Repr

/-- The structured fallback object each handler returns from its `catch`
block, given the caught error's message, copied field-for-field from
`main.js`. -/
def handlerFallback (msg : String) : IpcChannel → Json
  | .startMonitoring =>
    .obj [("success", .bool false), ("message", .str msg)]
  | .stopMonitoring =>
    .obj [("success", .bool false), ("message", .str msg)]
  | .getMonitoringStatus =>
    .obj [("isRunning", .bool false), ("lastActivity", .null),
          ("alerts", .arr []), ("error", .str msg)]
  | .updateMonitoringSettings =>
    .obj [("success", .bool false), ("message", .str msg)]
  | .getAlerts =>
    .obj [("alerts", .arr [])]
  | .startAI =>
    .obj [("success", .bool false), ("message", .str msg)]
  | .stopAI =>
    .obj [("success", .bool false), ("message", .str msg)]
  | .getAIStatus =>
    .obj [("isActive", .bool false), ("contextMemorySize", .num 0),
          ("conversationHistorySize", .num 0), ("error", .str msg)]
  | .chatWithAI =>
    .obj [("success", .bool false), ("message", .str msg)]

/-- An `ipcMain.handle` handler from `main.js`: each one awaits
`makeApiCall` inside `try { ... return result } catch (error) { ... return
<fallback> }`, so the handler resolves to the API result on success and to
the channel's structured fallback object on any failure; the `catch` never
rethrows. -/
def handleIpc (ch : IpcChannel) (o : FetchOutcome) : Json :=
  match makeApiCall o with
  | .ok result => result
  | .error msg => handlerFallback msg ch

/-! ## Risk-analysis engine core, modelled from the specification.
The engine sources (`analyzer.py`, `monitor.py`, `config.py`) are not part
of the available repository snapshot; the definitions below are built from
the specification's data model and algorithms. -/

/-- Modelled from the spec: a Signal is "a single piece of evidence
contributing to risk: a name, a severity weight, and a human-readable
reason string". -/
structure Signal where
  name : String
  severity : Nat
  reason : String
  deriving DecidableEq, Repr

/-- Modelled from the spec: the four risk levels of a Verdict. -/
inductive RiskLevel
  | unknown
  | safe
  | suspicious
  | dangerous
  deriving DecidableEq, Repr

/-- Numeric rank of a risk level, used to state monotonicity ("never
lowers the resulting level"). -/
def RiskLevel.rank : RiskLevel → Nat
  | .unknown => 0
  | .safe => 1
  | .suspicious => 2
  | .dangerous => 3

/-- Modelled from the spec: the severity thresholds for Suspicious and
Dangerous.  The spec leaves the numeric cutoffs open ("implementers must
choose and document concrete thresholds"), so they are parameters. -/
structure Thresholds where
  suspicious : Nat
  danger : Nat
  deriving DecidableEq, Repr

/-- Largest severity among a list of Signals (0 for the empty list). -/
def maxSeverity (signals : List Signal) : Nat :=
  (signals.map Signal.severity).foldr max 0

/-- Modelled from the spec, step 5 of `analyze`: "Dangerous if any Signal
severity ≥ danger threshold; Suspicious if any Signal severity ≥ suspicious
threshold; Safe if Signals exist but all below threshold; Unknown if no
Signals at all and no remote data". -/
def computeLevel (th : Thresholds) (signals : List Signal)
    (remoteData : Bool) : RiskLevel :=
  if signals.isEmpty && !remoteData then .unknown
  else if signals.any fun s => th.danger ≤ s.severity then .dangerous
  else if signals.any fun s => th.suspicious ≤ s.severity then .suspicious
  else .safe

/-- Risk level determined by a single maximal severity, used to state that
the level depends only on the highest-severity Signal. -/
def levelOfMaxSeverity (th : Thresholds) (m : Nat) : RiskLevel :=
  if th.danger ≤ m then .dangerous
  else if th.suspicious ≤ m then .suspicious
  else .safe

/-- Modelled from the spec: the kind of a Target, "File | Url". -/
inductive TargetKind
  | file
  | url
  deriving DecidableEq, Repr

/-- Modelled from the spec: a Target is "a file path or URL submitted for
analysis", with its kind and raw identifier; for file Targets we carry the
byte content the Fingerprinter reads (for URL Targets `content` is
unused). -/
structure Target where
  kind : TargetKind
  raw : String
  content : List Nat
  deriving DecidableEq, Repr

/-- Modelled from the spec: the cryptographic, collision-resistant content
digest of the Fingerprinter, idealized as an injective encoding of the byte
sequence (a collision-resistant 256-bit hash is treated as collision-free
in this model). -/
def digest : List Nat → Nat
  | [] => 0
  | b :: bs => Nat.pair b (digest bs) + 1

/-- Byte view of a string, used to hash normalized URLs. -/
def strBytes (s : String) : List Nat :=
  s.toList.map Char.toNat

/-- Insert a string into a sorted list of strings (ascending). -/
def insertSorted (s : String) : List String → List String
  | [] => [s]
  | t :: ts => if s ≤ t then s :: t :: ts else t :: insertSorted s ts

/-- Insertion sort on strings, used to sort URL query parameters. -/
def sortStrings : List String → List String
  | [] => []
  | s :: ss => insertSorted s (sortStrings ss)

/-- Lowercase a host[:port] component and strip the default ports 80 and
443. -/
def normalizeHostPort (hp : String) : String :=
  let hp := hp.toLower
  if hp.endsWith ":80" then hp.dropRight 3
  else if hp.endsWith ":443" then hp.dropRight 4
  else hp

/-- Modelled from the spec: conservative URL normalization — "lowercase
host, strip default ports, strip trailing slash, sort query parameters" —
so equivalent URLs share a Fingerprint. -/
def normalizeUrl (u : String) : String :=
  let parts := u.splitOn "?"
  let base := parts.headD u
  let query := String.intercalate "?" parts.tail
  let base := if base.endsWith "/" then base.dropRight 1 else base
  let base :=
    match base.splitOn "://" with
    | [scheme, rest] =>
      match rest.splitOn "/" with
      | [] => scheme.toLower ++ "://"
      | host :: path =>
        scheme.toLower ++ "://" ++
          String.intercalate "/" (normalizeHostPort host :: path)
    | _ => base
  if query = "" then base
  else base ++ "?" ++ String.intercalate "&" (sortStrings (query.splitOn "&"))

/-- Modelled from the spec: a Fingerprint is, "for files, a cryptographic
content digest plus size; for URLs, a normalized-string hash". -/
structure Fingerprint where
  hash : Nat
  size : Nat
  deriving DecidableEq, Repr

/-- Modelled from the spec, Fingerprinter contract: for files, the content
digest plus recorded size; for URLs, the hash of the normalized URL
string. -/
def fingerprint (t : Target) : Fingerprint :=
  match t.kind with
  | .file => { hash := digest t.content, size := t.content.length }
  | .url =>
    { hash := digest (strBytes (normalizeUrl t.raw)),
      size := (normalizeUrl t.raw).length }

/-- Modelled from the spec: a Verdict carries the Fingerprint, the risk
level, the ordered Signals that produced it, the timestamp of computation
and the source flag saying whether remote lookups contributed. -/
structure Verdict where
  fp : Fingerprint
  level : RiskLevel
  signals : List Signal
  timestamp : Nat
  sourceRemote : Bool
  deriving DecidableEq, Repr

/-- A Verdict Cache entry: the cached Verdict and its absolute expiry
time. -/
structure CacheEntry where
  verdict : Verdict
  expiresAt : Nat
  deriving DecidableEq, Repr

/-- Engine configuration relevant to `analyze`: thresholds, whether remote
reputation is enabled with at least one provider, and the cache TTL. -/
structure EngineConfig where
  thresholds : Thresholds
  remoteEnabled : Bool
  cacheTtl : Nat
  deriving DecidableEq, Repr

/-- Engine state threaded through `analyze` calls: the Verdict Cache as an
association list (most recent entry first), plus an instrumentation counter
of remote reputation-provider invocations (the spec's "mocking the
Reputation Client and counting invocations"). -/
structure EngineState where
  cache : List (Fingerprint × CacheEntry)
  remoteCalls : Nat
  deriving DecidableEq, Repr

/-- Modelled from the spec, Verdict Cache `get`: an entry "present and not
expired" is returned; "an entry past TTL is treated as absent even if not
yet evicted". -/
def lookupFresh : List (Fingerprint × CacheEntry) → Fingerprint → Nat →
    Option Verdict
  | [], _, _ => none
  | (k, e) :: rest, fp, now =>
    if k = fp then (if now < e.expiresAt then some e.verdict else none)
    else lookupFresh rest fp now

/-- Modelled from the spec, Risk Engine `analyze` (steps 1–6), parametric
in the Heuristic Scorer and the (mocked) Reputation Client: compute the
Fingerprint; return a cached unexpired Verdict verbatim, skipping remote
calls; otherwise run the scorer, invoke the Reputation Client when remote
reputation is enabled (counted in `remoteCalls`), compute the risk level
from the merged Signals, and cache the Verdict with the TTL. -/
def analyze (cfg : EngineConfig) (score : Target → List Signal)
    (provider : Fingerprint → List Signal) (now : Nat) (t : Target)
    (st : EngineState) : Verdict × EngineState :=
  let fp := fingerprint t
  match lookupFresh st.cache fp now with
  | some v => (v, st)
  | none =>
    let localSigs := score t
    let remoteSigs := if cfg.remoteEnabled then provider fp else []
    let signals := localSigs ++ remoteSigs
    let v : Verdict :=
      { fp := fp
        level := computeLevel cfg.thresholds signals cfg.remoteEnabled
        signals := signals
        timestamp := now
        sourceRemote := cfg.remoteEnabled }
    (v, { cache := (fp, ⟨v, now + cfg.cacheTtl⟩) :: st.cache
          remoteCalls :=
            st.remoteCalls + (if cfg.remoteEnabled then 1 else 0) })

/-- Modelled from the spec: per-provider configuration — enabled flag,
credential/key, base endpoint and per-call timeout. -/
structure ProviderConfig where
  enabled : Bool
  apiKey : String
  endpoint : String
  timeoutMs : Nat
  deriving DecidableEq, Repr

/-- Modelled from the spec, reputation-provider wire contract: an outbound
request consists exactly of the provider endpoint, a payload and the
provider's auth header — these three fields are the whole request. -/
structure WireRequest where
  endpoint : String
  payload : String
  authHeader : String
  deriving DecidableEq, Repr

/-- Modelled from the spec: the outbound request the Reputation Client
builds for a Target — "only a hash digest (file case) or normalized URL
string (URL case) plus the provider's required auth header; never raw file
bytes, filename, or path". -/
def buildWireRequest (pc : ProviderConfig) (t : Target) : WireRequest :=
  match t.kind with
  | .file =>
    { endpoint := pc.endpoint
      payload := toString (fingerprint t).hash
      authHeader := pc.apiKey }
  | .url =>
    { endpoint := pc.endpoint
      payload := normalizeUrl t.raw
      authHeader := pc.apiKey }

/-! ## Directory Watcher state machine, modelled from the specification. -/

/-- Filesystem observations driving the watcher's per-file state machine:
a creation/modification notification, a debounce poll sampling the file's
size/mtime, or a deletion. -/
inductive FsEvent
  | notify (size : Nat)
  | poll (size : Nat)
  | deleted
  deriving DecidableEq, Repr

/-- Modelled from the spec, §4.6: the per-file watcher states
`Idle → Detected → Stabilizing → Ready`; `stabilizing` records the last
poll sample so that "unchanged across two consecutive polls" can be
detected. -/
inductive WState
  | idle
  | detected
  | stabilizing (lastPoll : Nat)
  | ready
  deriving DecidableEq, Repr

/-- Modelled from the spec: one watcher transition, returning the next
state and the number of WatchEvents emitted (0 or 1).  A notification moves
an idle file to Detected and restarts the debounce window of a file already
being watched; a poll sample unchanged from the previous poll moves the
file to Ready, emitting the WatchEvent; deletion before Ready silently
cancels (back to Idle, nothing emitted); every event is handled in every
state, so no transition is an error. -/
def wstep : WState → FsEvent → WState × Nat
  | .idle, .notify _ => (.detected, 0)
  | .idle, .poll _ => (.idle, 0)
  | .idle, .deleted => (.idle, 0)
  | .detected, .notify _ => (.detected, 0)
  | .detected, .poll s => (.stabilizing s, 0)
  | .detected, .deleted => (.idle, 0)
  | .stabilizing _, .notify _ => (.detected, 0)
  | .stabilizing p, .poll s =>
    if s = p then (.ready, 1) else (.stabilizing s, 0)
  | .stabilizing _, .deleted => (.idle, 0)
  | .ready, _ => (.ready, 0)

/-- Run the watcher state machine over a sequence of filesystem events for
one physical file-creation episode, accumulating the number of WatchEvents
emitted. -/
def runWatcher (st : WState) : List FsEvent → WState × Nat
  | [] => (st, 0)
  | e :: es =>
    let r := wstep st e
    let rest := runWatcher r.1 es
    (rest.1, r.2 + rest.2)

/-! ## Theorems -/

/-- C8: `checkPort` always resolves to a boolean (it is total into `Bool`:
every socket event branch calls `resolve`, never `reject`); it resolves
`true` exactly on a successful TCP connection, `false` on a socket error or
on the socket timeout, and the configured socket timeout is 2000 ms. -/
theorem checkPort_spec :
    (∀ o, checkPort o = true ↔ o = SocketOutcome.connected) ∧
    checkPort .timedOut = false ∧
    checkPort .sockError = false ∧
    checkPortTimeoutMs = 2000 := by
  refine ⟨fun o => ?_, rfl, rfl, rfl⟩
  cases o <;> simp [checkPort]

/-- C10: `makeApiCall` returns the parsed JSON body exactly when the HTTP
response is ok (and the body parses); on a non-ok response it throws an
error whose message contains the HTTP status code; network errors and body
parse errors are rethrown to the caller unchanged. -/
theorem makeApiCall_spec :
    (∀ status body j,
        makeApiCall (.response true status body) = .ok j ↔ body = .ok j) ∧
    (∀ o j, makeApiCall o = .ok j →
        ∃ status, o = .response true status (.ok j)) ∧
    (∀ status body,
        makeApiCall (.response false status body) =
          .error ("API call failed: " ++ toString status) ∧
        ∃ pre post,
          "API call failed: " ++ toString status =
            pre ++ toString status ++ post) ∧
    (∀ m, makeApiCall (.networkError m) = .error m) ∧
    (∀ status m, makeApiCall (.response true status (.error m)) =
      .error m) := by
  refine ⟨?_, ?_, ?_, fun m => rfl, fun status m => rfl⟩
  · intro status body j
    cases body <;> simp [makeApiCall]
  · intro o j h
    cases o with
    | networkError m => simp [makeApiCall] at h
    | response ok status body =>
      cases ok with
      | false => simp [makeApiCall] at h
      | true =>
        cases body with
        | error m => simp [makeApiCall] at h
        | ok j2 =>
          simp [makeApiCall] at h
          exact ⟨status, by rw [h]⟩
  · intro status body
    exact ⟨rfl, "API call failed: ", "", by simp⟩

/-- Witness for C10 at a concrete input: a 200-ok response with a parsed
body is indeed an ok response carrying that body. -/
theorem makeApiCall_spec_witness :
    ∃ status,
      FetchOutcome.response true 200 (Except.ok Json.null) =
        FetchOutcome.response true status (Except.ok Json.null) :=
  makeApiCall_spec.2.1 (.response true 200 (.ok .null)) .null rfl

/-- C1: every IPC handler, on any failure of the underlying API call,
returns the channel's plain structured fallback object (a JSON object
literal such as `{success:false, message}` or a status object carrying an
error string); the error never propagates past the handler. -/
theorem ipc_handlers_structured_on_failure :
    ∀ (ch : IpcChannel) (o : FetchOutcome) (msg : String),
      makeApiCall o = .error msg →
      handleIpc ch o = handlerFallback msg ch ∧
      ∃ fields, handlerFallback msg ch = Json.obj fields := by
  intro ch o msg h
  refine ⟨by simp [handleIpc, h], ?_⟩
  cases ch <;> exact ⟨_, rfl⟩

/-- Witness for C1 at a concrete input: a refused connection on the
`start-monitoring` channel yields the structured fallback object. -/
theorem ipc_handlers_structured_on_failure_witness :
    handleIpc .startMonitoring (.networkError "ECONNREFUSED") =
      handlerFallback "ECONNREFUSED" .startMonitoring ∧
    ∃ fields,
      handlerFallback "ECONNREFUSED" IpcChannel.startMonitoring =
        Json.obj fields :=
  ipc_handlers_structured_on_failure .startMonitoring
    (.networkError "ECONNREFUSED") "ECONNREFUSED" rfl

/-- Correctness of the `waitForServices` attempt loop, by induction on the
remaining fuel: starting from `attempts` tried attempts (all failed so
far), the loop either returns `true` at the first later attempt where both
services are ready (within `maxAttempts`), or returns `false` at attempt
`maxAttempts` with every attempt having failed. -/
lemma waitLoop_spec (env : ServiceEnv) :
    ∀ fuel attempts, 1 ≤ fuel → fuel + attempts = maxAttempts →
    (∀ m, 1 ≤ m → m ≤ attempts → ¬ bothReady (env m)) →
    (∃ n, attempts < n ∧ n ≤ maxAttempts ∧ bothReady (env n) ∧
        (∀ m, 1 ≤ m → m < n → ¬ bothReady (env m)) ∧
        waitLoop env fuel attempts = some (true, n)) ∨
      ((∀ m, 1 ≤ m → m ≤ maxAttempts → ¬ bothReady (env m)) ∧
        waitLoop env fuel attempts = some (false, maxAttempts)) := by
  intro fuel
  induction fuel with
  | zero => intro attempts h1; omega
  | succ fuel ih =>
    intro attempts _ hsum hfail
    by_cases hb : bothReady (env (attempts + 1))
    · left
      refine ⟨attempts + 1, by omega, by omega, hb,
        fun m h1m hm => hfail m h1m (by omega), ?_⟩
      simp only [waitLoop]
      rw [if_pos (by simp [hb.1, hb.2])]
    · have hcond : ¬ ((env (attempts + 1)).1 && (env (attempts + 1)).2) = true := by
        intro hc
        exact hb ⟨(Bool.and_eq_true _ _ |>.mp hc).1,
          (Bool.and_eq_true _ _ |>.mp hc).2⟩
      by_cases h30 : maxAttempts ≤ attempts + 1
      · right
        have heq : attempts + 1 = maxAttempts := by omega
        constructor
        · intro m h1m hm
          rcases Nat.lt_or_ge m (attempts + 1) with hlt | hge
          · exact hfail m h1m (by omega)
          · have : m = attempts + 1 := by omega
            rw [this]; exact hb
        · simp only [waitLoop]
          rw [if_neg hcond, if_pos h30, heq]
      · have hrec := ih (attempts + 1) (by omega) (by omega)
          (fun m h1m hm => by
            rcases Nat.lt_or_ge m (attempts + 1) with hlt | hge
            · exact hfail m h1m (by omega)
            · have : m = attempts + 1 := by omega
              rw [this]; exact hb)
        have hunf : waitLoop env (fuel + 1) attempts =
            waitLoop env fuel (attempts + 1) := by
          simp only [waitLoop]
          rw [if_neg hcond, if_neg h30]
        rcases hrec with ⟨n, hn1, hn2, hn3, hn4, hn5⟩ | ⟨hall, hloop⟩
        · left
          exact ⟨n, by omega, hn2, hn3, hn4, by rw [hunf]; exact hn5⟩
        · right
          exact ⟨hall, by rw [hunf]; exact hloop⟩

/-- C9: `waitForServices` always terminates with a boolean after at most 30
attempts (2000 ms between attempts): it returns `true` at the first attempt
where both port 3000 and port 5001 accept connections, returns `false` at
the 30th attempt when every attempt failed, and in the latter case
`startElectron` exits with code 1 and does not spawn Electron. -/
theorem waitForServices_spec (env : ServiceEnv) :
    maxAttempts = 30 ∧ retryDelayMs = 2000 ∧
    ((∃ n, 1 ≤ n ∧ n ≤ maxAttempts ∧ bothReady (env n) ∧
        (∀ m, 1 ≤ m → m < n → ¬ bothReady (env m)) ∧
        waitForServices env = some (true, n) ∧
        startElectron env = .spawned) ∨
      ((∀ m, 1 ≤ m → m ≤ maxAttempts → ¬ bothReady (env m)) ∧
        waitForServices env = some (false, maxAttempts) ∧
        startElectron env = .exited 1 ∧
        startElectron env ≠ .spawned)) := by
  refine ⟨rfl, rfl, ?_⟩
  have h := waitLoop_spec env maxAttempts 0 (by norm_num [maxAttempts])
    (by omega) (by omega)
  rcases h with ⟨n, hn1, hn2, hn3, hn4, hn5⟩ | ⟨hall, hloop⟩
  · left
    have hws : waitForServices env = some (true, n) := hn5
    exact ⟨n, by omega, hn2, hn3, hn4, hws,
      by simp [startElectron, hws]⟩
  · right
    have hws : waitForServices env = some (false, maxAttempts) := hloop
    refine ⟨hall, hws, by simp [startElectron, hws], ?_⟩
    simp [startElectron, hws]

/-- Witness for C9 at a concrete input: with both services ready at every
attempt, `waitForServices` resolves to `true` and Electron is spawned. -/
theorem waitForServices_spec_witness :
    ∃ n, waitForServices (fun _ => (true, true)) = some (true, n) ∧
      startElectron (fun _ => (true, true)) = StartResult.spawned := by
  rcases (waitForServices_spec (fun _ => (true, true))).2.2 with
    ⟨n, _, _, _, _, h5, h6⟩ | ⟨hall, _⟩
  · exact ⟨n, h5, h6⟩
  · exact absurd ⟨rfl, rfl⟩ (hall 1 (by norm_num) (by norm_num [maxAttempts]))

/-- Unfolding of `maxSeverity` over a cons cell. -/
lemma maxSeverity_cons (s : Signal) (sg : List Signal) :
    maxSeverity (s :: sg) = max s.severity (maxSeverity sg) := rfl

/-- A nonempty Signal list has a Signal at or above a threshold exactly
when its maximum severity is. -/
lemma exists_severity_iff_max (t : Nat) :
    ∀ sg : List Signal, sg ≠ [] →
      ((∃ s ∈ sg, t ≤ s.severity) ↔ t ≤ maxSeverity sg) := by
  intro sg
  induction sg with
  | nil => intro h; exact absurd rfl h
  | cons s rest ih =>
    intro _
    cases rest with
    | nil => simp [maxSeverity]
    | cons s2 r2 =>
      have hih := ih (by simp)
      rw [maxSeverity_cons, le_max_iff, ← hih]
      simp [List.mem_cons, or_and_right, exists_or]

/-- C2: characterization of the computed risk level (thresholds ordered
with suspicious ≤ danger): Dangerous iff some Signal reaches the danger
threshold; Suspicious iff some Signal reaches the suspicious threshold and
none the danger threshold; Safe iff evidence exists (some Signal or remote
data) and every Signal is below the suspicious threshold; Unknown exactly
when there is no Signal and no remote data; and for a nonempty Signal set
the level is a function of the single maximum severity alone, not of any
aggregate sum. -/
theorem computeLevel_spec (th : Thresholds) (sg : List Signal) (r : Bool)
    (hth : th.suspicious ≤ th.danger) :
    (computeLevel th sg r = .dangerous ↔
      ∃ s ∈ sg, th.danger ≤ s.severity) ∧
    (computeLevel th sg r = .suspicious ↔
      (∃ s ∈ sg, th.suspicious ≤ s.severity) ∧
        ∀ s ∈ sg, s.severity < th.danger) ∧
    (computeLevel th sg r = .safe ↔
      (sg ≠ [] ∨ r = true) ∧ ∀ s ∈ sg, s.severity < th.suspicious) ∧
    (computeLevel th sg r = .unknown ↔ sg = [] ∧ r = false) ∧
    (sg ≠ [] →
      computeLevel th sg r = levelOfMaxSeverity th (maxSeverity sg)) := by
  have hDang : ((sg.any fun s => th.danger ≤ s.severity) = true) ↔
      ∃ s ∈ sg, th.danger ≤ s.severity := by
    simp [List.any_eq_true]
  have hSusp : ((sg.any fun s => th.suspicious ≤ s.severity) = true) ↔
      ∃ s ∈ sg, th.suspicious ≤ s.severity := by
    simp [List.any_eq_true]
  have hEmpty : ((sg.isEmpty && !r) = true) ↔ (sg = [] ∧ r = false) := by
    cases sg <;> cases r <;> simp
  refine ⟨?_, ?_, ?_, ?_, ?_⟩
  · unfold computeLevel
    split_ifs with h1 h2 h3 <;> simp_all
  · unfold computeLevel
    split_ifs with h1 h2 h3 <;> simp_all
  · unfold computeLevel
    split_ifs with h1 h2 h3 <;> simp_all
    · intro _
      obtain ⟨u, hu, hle⟩ := hDang
      exact ⟨u, hu, by omega⟩
    · rcases eq_or_ne sg [] with hsg | hsg
      · exact Or.inr (hEmpty hsg)
      · exact Or.inl hsg
  · unfold computeLevel
    split_ifs with h1 h2 h3 <;> simp_all
  · intro hne
    have hd := exists_severity_iff_max th.danger sg hne
    have hs := exists_severity_iff_max th.suspicious sg hne
    have hie : sg.isEmpty = false := by
      cases sg
      · exact absurd rfl hne
      · rfl
    unfold computeLevel levelOfMaxSeverity
    rw [hie]
    simp only [Bool.false_and, Bool.false_eq_true, if_false]
    by_cases hD : th.danger ≤ maxSeverity sg
    · rw [if_pos (hDang.2 (hd.2 hD)), if_pos hD]
    · rw [if_neg (fun hc => hD (hd.1 (hDang.1 hc))), if_neg hD]
      by_cases hS : th.suspicious ≤ maxSeverity sg
      · rw [if_pos (hSusp.2 (hs.2 hS)), if_pos hS]
      · rw [if_neg (fun hc => hS (hs.1 (hSusp.1 hc))), if_neg hS]

/-- Witness for C2 at a concrete input: with thresholds 3/7, a single
severity-9 Signal and no remote data, the Dangerous characterization
holds. -/
theorem computeLevel_spec_witness :
    (3 : Nat) ≤ 7 ∧
    (computeLevel ⟨3, 7⟩ [⟨"a", 9, "r"⟩] false = .dangerous ↔
      ∃ s ∈ [Signal.mk "a" 9 "r"], 7 ≤ s.severity) :=
  ⟨by decide, (computeLevel_spec ⟨3, 7⟩ [⟨"a", 9, "r"⟩] false (by decide)).1⟩

/-- Adding any Signal to the front of a Signal set never lowers the
computed risk level. -/
lemma computeLevel_rank_cons (th : Thresholds) (sg : List Signal)
    (r : Bool) (s : Signal) :
    (computeLevel th sg r).rank ≤ (computeLevel th (s :: sg) r).rank := by
  simp only [computeLevel, List.isEmpty_cons, Bool.false_and,
    List.any_cons, Bool.or_eq_true, Bool.false_eq_true]
  split_ifs <;> simp_all [RiskLevel.rank]

/-- C3: adding a Signal whose severity is at least the maximum severity of
the existing Signal set never lowers the resulting risk level. -/
theorem risk_level_monotone (th : Thresholds) (sg : List Signal) (r : Bool)
    (s : Signal) (_hmax : ∀ u ∈ sg, u.severity ≤ s.severity) :
    (computeLevel th sg r).rank ≤ (computeLevel th (s :: sg) r).rank :=
  computeLevel_rank_cons th sg r s

/-- Witness for C3 at a concrete input: adding a severity-9 Signal above a
severity-2 set does not lower the level. -/
theorem risk_level_monotone_witness :
    (∀ u ∈ [Signal.mk "ext" 2 "r"],
      u.severity ≤ (Signal.mk "vt" 9 "m").severity) ∧
    (computeLevel ⟨3, 7⟩ [⟨"ext", 2, "r"⟩] false).rank ≤
      (computeLevel ⟨3, 7⟩ (⟨"vt", 9, "m"⟩ :: [⟨"ext", 2, "r"⟩])
        false).rank :=
  ⟨by decide, risk_level_monotone ⟨3, 7⟩ [⟨"ext", 2, "r"⟩] false
    ⟨"vt", 9, "m"⟩ (by decide)⟩

/-- The idealized content digest is injective: distinct byte sequences
have distinct digests. -/
lemma digest_injective : ∀ {xs ys : List Nat}, digest xs = digest ys →
    xs = ys := by
  intro xs
  induction xs with
  | nil =>
    intro ys h
    cases ys with
    | nil => rfl
    | cons b bs => simp [digest] at h
  | cons a as ih =>
    intro ys h
    cases ys with
    | nil => simp [digest] at h
    | cons b bs =>
      simp only [digest, Nat.add_right_cancel_iff] at h
      rw [Nat.pair_eq_pair] at h
      rw [h.1, ih h.2]

/-- C7: the Fingerprinter is deterministic — two file Targets with
identical content yield the same Fingerprint regardless of path or name —
and sensitive — any byte-level difference in content yields a different
Fingerprint; two URL Targets with the same normalized URL yield the same
Fingerprint. -/
theorem fingerprint_spec (t₁ t₂ : Target) :
    (t₁.kind = .file → t₂.kind = .file → t₁.content = t₂.content →
      fingerprint t₁ = fingerprint t₂) ∧
    (t₁.kind = .file → t₂.kind = .file → t₁.content ≠ t₂.content →
      fingerprint t₁ ≠ fingerprint t₂) ∧
    (t₁.kind = .url → t₂.kind = .url →
      normalizeUrl t₁.raw = normalizeUrl t₂.raw →
      fingerprint t₁ = fingerprint t₂) := by
  obtain ⟨k₁, r₁, c₁⟩ := t₁
  obtain ⟨k₂, r₂, c₂⟩ := t₂
  refine ⟨?_, ?_, ?_⟩ <;> intro h1 h2 h3 <;> subst h1 <;> subst h2
  · simp only at h3
    simp [fingerprint, h3]
  · intro heq
    simp only [fingerprint, Fingerprint.mk.injEq] at heq
    exact h3 (digest_injective heq.1)
  · simp only at h3
    simp [fingerprint, h3]

/-- Witness for C7 at concrete inputs: equal content under different paths
gives equal Fingerprints, and a one-byte change gives different
Fingerprints. -/
theorem fingerprint_spec_witness :
    fingerprint ⟨.file, "/home/a/invoice.pdf", [77, 90, 0]⟩ =
      fingerprint ⟨.file, "/tmp/copy.bin", [77, 90, 0]⟩ ∧
    fingerprint ⟨.file, "/home/a/f", [1]⟩ ≠
      fingerprint ⟨.file, "/home/a/f", [2]⟩ :=
  ⟨(fingerprint_spec _ _).1 rfl rfl rfl,
    (fingerprint_spec _ _).2.1 rfl rfl (by decide)⟩

/-- C5: the outbound reputation request consists exactly of the provider
endpoint, the payload — the content digest for files, the normalized URL
for URLs — and the provider's auth header; for file Targets the request is
a function of the content alone, so raw bytes, filename and path are never
part of it (two file Targets with the same content produce identical
requests whatever their paths). -/
theorem wire_contract_spec (pc : ProviderConfig) (t t' : Target) :
    (t.kind = .file →
      buildWireRequest pc t =
        { endpoint := pc.endpoint
          payload := toString (digest t.content)
          authHeader := pc.apiKey }) ∧
    (t.kind = .url →
      buildWireRequest pc t =
        { endpoint := pc.endpoint
          payload := normalizeUrl t.raw
          authHeader := pc.apiKey }) ∧
    (t.kind = .file → t'.kind = .file → t.content = t'.content →
      buildWireRequest pc t = buildWireRequest pc t') := by
  obtain ⟨k, r, c⟩ := t
  obtain ⟨k', r', c'⟩ := t'
  refine ⟨?_, ?_, ?_⟩
  · intro h; subst h; simp [buildWireRequest, fingerprint]
  · intro h; subst h; simp [buildWireRequest]
  · intro h h' hc
    subst h; subst h'
    simp only at hc
    simp [buildWireRequest, fingerprint, hc]

/-- Witness for C5 at concrete inputs: the same file content under two
different paths and filenames produces byte-identical outbound
requests. -/
theorem wire_contract_spec_witness :
    buildWireRequest ⟨true, "KEY", "https://rep.example/api", 5000⟩
        ⟨.file, "/home/a/invoice.pdf.exe", [77, 90]⟩ =
      buildWireRequest ⟨true, "KEY", "https://rep.example/api", 5000⟩
        ⟨.file, "/tmp/other-name.bin", [77, 90]⟩ :=
  (wire_contract_spec _ _ _).2.2 rfl rfl rfl

/-- The Ready state absorbs every event without further emission. -/
lemma wstep_ready (e : FsEvent) : wstep .ready e = (.ready, 0) := by
  cases e <;> rfl

/-- Running the watcher from Ready stays in Ready and emits nothing. -/
lemma runWatcher_ready : ∀ evs, runWatcher .ready evs = (.ready, 0) := by
  intro evs
  induction evs with
  | nil => rfl
  | cons e es ih => simp [runWatcher, wstep_ready, ih]

/-- From a non-Ready state, a watcher transition either emits nothing and
stays non-Ready, or is the unique emitting transition into Ready. -/
lemma wstep_classify (st : WState) (e : FsEvent) (h : st ≠ .ready) :
    ((wstep st e).2 = 0 ∧ (wstep st e).1 ≠ .ready) ∨
      wstep st e = (.ready, 1) := by
  cases st <;> cases e <;> first
    | exact absurd rfl h
    | (simp only [wstep]
       first
        | (split_ifs <;> simp)
        | simp)

/-- The number of WatchEvents emitted over a run is 1 exactly when the run
reaches Ready from a non-Ready start, and 0 otherwise. -/
lemma runWatcher_count : ∀ (evs : List FsEvent) (st : WState),
    (runWatcher st evs).2 =
      if (runWatcher st evs).1 = .ready ∧ st ≠ .ready then 1 else 0 := by
  intro evs
  induction evs with
  | nil =>
    intro st
    simp [runWatcher]
  | cons e es ih =>
    intro st
    by_cases hst : st = .ready
    · subst hst
      rw [runWatcher_ready]
      simp [runWatcher_ready]
    · have hr := ih (wstep st e).1
      simp only [runWatcher]
      rcases wstep_classify st e hst with ⟨h0, hnr⟩ | h1
      · rw [h0, hr]
        simp [hnr, hst]
      · simp [h1, runWatcher_ready, hst]

/-- Composition of watcher runs over concatenated event lists. -/
lemma runWatcher_append : ∀ (a b : List FsEvent) (st : WState),
    runWatcher st (a ++ b) =
      ((runWatcher (runWatcher st a).1 b).1,
        (runWatcher st a).2 + (runWatcher (runWatcher st a).1 b).2) := by
  intro a
  induction a with
  | nil => intro b st; simp [runWatcher]
  | cons e es ih =>
    intro b st
    simp [runWatcher, ih, Nat.add_assoc]

/-- C6: over any sequence of filesystem events for one file-creation
episode, the watcher emits at most one WatchEvent; it emits exactly one
exactly when the file stabilizes (reaches Ready), however many
modifications happened during debounce; and deletion before stabilization
silently cancels: the run ends Idle with zero WatchEvents emitted (every
event is handled by a total transition function, so no error is
raised). -/
theorem watcher_spec (evs : List FsEvent) :
    (runWatcher .idle evs).2 ≤ 1 ∧
    ((runWatcher .idle evs).2 = 1 ↔ (runWatcher .idle evs).1 = .ready) ∧
    (∀ pre, (runWatcher .idle pre).1 ≠ .ready →
      runWatcher .idle (pre ++ [FsEvent.deleted]) = (.idle, 0)) := by
  have hcount := runWatcher_count evs .idle
  refine ⟨?_, ?_, ?_⟩
  · rw [hcount]
    split_ifs <;> omega
  · rw [hcount]
    split_ifs with h
    · simp [h.1]
    · have hnr : ¬ (runWatcher .idle evs).1 = .ready := fun hA =>
        h ⟨hA, by simp⟩
      simp [hnr]
  · intro pre hpre
    have hstep : wstep (runWatcher .idle pre).1 FsEvent.deleted =
        (.idle, 0) := by
      rcases h : (runWatcher .idle pre).1 with _ | _ | p | _
      · rfl
      · rfl
      · rfl
      · exact absurd h hpre
    have hrest : runWatcher (runWatcher .idle pre).1 [FsEvent.deleted] =
        (.idle, 0) := by
      simp [runWatcher, hstep]
    have hc := runWatcher_count pre .idle
    rw [if_neg (fun hA => hpre hA.1)] at hc
    rw [runWatcher_append, hrest, hc]
    simp

/-- Witness for C6 at a concrete input: a file detected and polled once,
then deleted before stabilizing, ends Idle with zero WatchEvents. -/
theorem watcher_spec_witness :
    runWatcher .idle
        ([FsEvent.notify 5, FsEvent.poll 5] ++ [FsEvent.deleted]) =
      (.idle, 0) :=
  (watcher_spec []).2.2 [FsEvent.notify 5, FsEvent.poll 5] (by decide)

/-- On a cache hit, `analyze` returns the cached Verdict verbatim and
leaves the state — including the remote-call counter — untouched. -/
lemma analyze_hit (cfg : EngineConfig) (score : Target → List Signal)
    (provider : Fingerprint → List Signal) (now : Nat) (t : Target)
    (st : EngineState) (v : Verdict)
    (h : lookupFresh st.cache (fingerprint t) now = some v) :
    analyze cfg score provider now t st = (v, st) := by
  simp only [analyze, h]

/-- On a cache miss, `analyze` pushes a fresh entry with expiry
`now + cacheTtl` and increments the remote-call counter by at most one. -/
lemma analyze_miss_state (cfg : EngineConfig) (score : Target → List Signal)
    (provider : Fingerprint → List Signal) (now : Nat) (t : Target)
    (st : EngineState)
    (h : lookupFresh st.cache (fingerprint t) now = none) :
    (analyze cfg score provider now t st).2.cache =
      (fingerprint t,
        ⟨(analyze cfg score provider now t st).1, now + cfg.cacheTtl⟩) ::
        st.cache ∧
    (analyze cfg score provider now t st).2.remoteCalls =
      st.remoteCalls + (if cfg.remoteEnabled then 1 else 0) := by
  simp only [analyze, h]
  exact ⟨trivial, trivial⟩

/-- C4: two `analyze` calls for the same Fingerprint within the cache TTL
(the first a cache miss, as at the start of an episode) make at most one
remote provider call in total: the second call hits the cached, unexpired
Verdict, returns it verbatim, changes nothing — in particular it never
invokes the Reputation Client. -/
theorem analyze_cache_spec (cfg : EngineConfig)
    (score : Target → List Signal) (provider : Fingerprint → List Signal)
    (ta tb : Target) (st₀ : EngineState) (t₁ t₂ : Nat)
    (hfp : fingerprint tb = fingerprint ta)
    (hmiss : lookupFresh st₀.cache (fingerprint ta) t₁ = none)
    (_h12 : t₁ ≤ t₂) (httl : t₂ < t₁ + cfg.cacheTtl) :
    (analyze cfg score provider t₂ tb
        (analyze cfg score provider t₁ ta st₀).2).1 =
      (analyze cfg score provider t₁ ta st₀).1 ∧
    (analyze cfg score provider t₂ tb
        (analyze cfg score provider t₁ ta st₀).2).2 =
      (analyze cfg score provider t₁ ta st₀).2 ∧
    (analyze cfg score provider t₂ tb
        (analyze cfg score provider t₁ ta st₀).2).2.remoteCalls ≤
      st₀.remoteCalls + 1 := by
  obtain ⟨hcache, hcalls⟩ :=
    analyze_miss_state cfg score provider t₁ ta st₀ hmiss
  have hhit : lookupFresh
      (analyze cfg score provider t₁ ta st₀).2.cache (fingerprint tb) t₂ =
      some (analyze cfg score provider t₁ ta st₀).1 := by
    rw [hcache]
    simp only [lookupFresh]
    rw [if_pos hfp.symm, if_pos httl]
  have h2 := analyze_hit cfg score provider t₂ tb
    (analyze cfg score provider t₁ ta st₀).2
    (analyze cfg score provider t₁ ta st₀).1 hhit
  rw [h2]
  refine ⟨rfl, rfl, ?_⟩
  rw [hcalls]
  split_ifs <;> omega

/-- Witness for C4 at concrete inputs: a first analysis of a file at time
10 with remote lookups enabled, then a second analysis of the same file at
time 50 within a TTL of 100, returns the first Verdict verbatim, leaves
the state unchanged and makes at most one remote call in total. -/
theorem analyze_cache_spec_witness :
    (analyze ⟨⟨3, 7⟩, true, 100⟩ (fun _ => []) (fun _ => [⟨"vt", 9, "m"⟩])
        50 ⟨.file, "/d/f.exe", [77]⟩
        (analyze ⟨⟨3, 7⟩, true, 100⟩ (fun _ => [])
          (fun _ => [⟨"vt", 9, "m"⟩]) 10 ⟨.file, "/d/f.exe", [77]⟩
          ⟨[], 0⟩).2).1 =
      (analyze ⟨⟨3, 7⟩, true, 100⟩ (fun _ => [])
        (fun _ => [⟨"vt", 9, "m"⟩]) 10 ⟨.file, "/d/f.exe", [77]⟩
        ⟨[], 0⟩).1 ∧
    (analyze ⟨⟨3, 7⟩, true, 100⟩ (fun _ => []) (fun _ => [⟨"vt", 9, "m"⟩])
        50 ⟨.file, "/d/f.exe", [77]⟩
        (analyze ⟨⟨3, 7⟩, true, 100⟩ (fun _ => [])
          (fun _ => [⟨"vt", 9, "m"⟩]) 10 ⟨.file, "/d/f.exe", [77]⟩
          ⟨[], 0⟩).2).2 =
      (analyze ⟨⟨3, 7⟩, true, 100⟩ (fun _ => [])
        (fun _ => [⟨"vt", 9, "m"⟩]) 10 ⟨.file, "/d/f.exe", [77]⟩
        ⟨[], 0⟩).2 ∧
    (analyze ⟨⟨3, 7⟩, true, 100⟩ (fun _ => []) (fun _ => [⟨"vt", 9, "m"⟩])
        50 ⟨.file, "/d/f.exe", [77]⟩
        (analyze ⟨⟨3, 7⟩, true, 100⟩ (fun _ => [])
          (fun _ => [⟨"vt", 9, "m"⟩]) 10 ⟨.file, "/d/f.exe", [77]⟩
          ⟨[], 0⟩).2).2.remoteCalls ≤ 0 + 1 :=
  analyze_cache_spec ⟨⟨3, 7⟩, true, 100⟩ (fun _ => [])
    (fun _ => [⟨"vt", 9, "m"⟩]) ⟨.file, "/d/f.exe", [77]⟩
    ⟨.file, "/d/f.exe", [77]⟩ ⟨[], 0⟩ 10 50 rfl rfl
    (by decide) (by decide)

end BR2026
